import Mathlib

/-!
Verification of the Run/Task execution state machine of scancode.io
(scanpipe/models.py and scanpipe/views.py), shallowly embedded in Lean.

Modelling choices:
* `task_id` values and Run primary keys are opaque `Nat`s.
* datetimes are epoch timestamps in whole seconds, modelled as `Int`
  (`execution_time` subtracts them exactly as the source does, at
  whole-second resolution).
* nullable database columns are `Option`s; text columns are `String`s.
* `save(update_fields=...)` is modelled by returning a record in which
  exactly the listed fields differ; raising an exception is modelled by
  `Except`, with the state the instance had at raise time.
* the external RQ job queue is modelled by a snapshot
  `Option JobStatus` for the `task_id` of the Run: `none` means the job is
  not found in the queue registries.
-/

namespace Scanpipe

/-- The task-related columns of `AbstractTaskFieldsModel` (scanpipe/models.py). -/
structure TaskFields where
  task_id : Option Nat
  task_start_date : Option Int
  task_end_date : Option Int
  task_exitcode : Option Int
  task_output : String
  log : String
deriving DecidableEq, Repr

/-- A freshly created Run: every task field is null, text fields empty. -/
def initialTaskFields : TaskFields :=
  { task_id := none
    task_start_date := none
    task_end_date := none
    task_exitcode := none
    task_output := ""
    log := "" }

/-- The `Status` text choices of `AbstractTaskFieldsModel.Status`. -/
inductive Status where
  | not_started
  | queued
  | running
  | success
  | failure
  | stopped
  | stale
deriving DecidableEq, Repr

/-- The status values of an RQ job (`rq.job.JobStatus`). -/
inductive JobStatus where
  | queued
  | finished
  | failed
  | started
  | deferred
  | scheduled
  | stopped
  | canceled
deriving DecidableEq, Repr

/-- `task_succeeded`: the exitcode equals 0. -/
def task_succeeded (tf : TaskFields) : Bool :=
  tf.task_exitcode = some 0

/-- `task_failed`: Python `self.task_exitcode and self.task_exitcode > 0`,
i.e. the exitcode is set, truthy (nonzero) and positive. -/
def task_failed (tf : TaskFields) : Bool :=
  match tf.task_exitcode with
  | some e => e ≠ 0 && 0 < e
  | none => false

/-- `task_stopped`: the exitcode equals the 99 sentinel. -/
def task_stopped (tf : TaskFields) : Bool :=
  tf.task_exitcode = some 99

/-- `task_staled`: the exitcode equals the 88 sentinel. -/
def task_staled (tf : TaskFields) : Bool :=
  tf.task_exitcode = some 88

/-- The status deriver `AbstractTaskFieldsModel.status`, embedded branch by
branch from the source. -/
def status (tf : TaskFields) : Status :=
  if task_succeeded tf then Status.success
  else if task_staled tf then Status.stale
  else if task_stopped tf then Status.stopped
  else if task_failed tf then Status.failure
  else if tf.task_start_date.isSome then Status.running
  else if tf.task_id.isSome then Status.queued
  else Status.not_started

/-- The Status Deriver as worded in the specification (section 4.1): a
first-match precedence list over the four task fields. This definition is
written from the spec text, to be compared with `status` above. -/
def statusSpec (tf : TaskFields) : Status :=
  if tf.task_exitcode = some 0 then Status.success
  else if tf.task_exitcode = some 88 then Status.stale
  else if tf.task_exitcode = some 99 then Status.stopped
  else if tf.task_exitcode ≠ none ∧ 0 < tf.task_exitcode.getD 0 then Status.failure
  else if tf.task_start_date ≠ none then Status.running
  else if tf.task_id ≠ none then Status.queued
  else Status.not_started

/-- `AbstractTaskFieldsModel.execution_time`: `None` for a staled task,
otherwise end minus start when both dates are set. -/
def execution_time (tf : TaskFields) : Option Int :=
  if task_staled tf then none
  else
    match tf.task_end_date, tf.task_start_date with
    | some e, some s => some (e - s)
    | _, _ => none

/-- `reset_task_values`: reset all task-related fields to their initial null
value (saved with `update_fields` = the five task fields only). -/
def reset_task_values (tf : TaskFields) : TaskFields :=
  { tf with
    task_id := none
    task_start_date := none
    task_end_date := none
    task_exitcode := none
    task_output := "" }

/-- `set_task_started(task_id)`: set `task_id` and `task_start_date`. -/
def set_task_started (taskId : Nat) (now : Int) (tf : TaskFields) : TaskFields :=
  { tf with task_id := some taskId, task_start_date := some now }

/-- `set_task_ended(exitcode, output)`: set `task_exitcode`, `task_output`
and `task_end_date`. -/
def set_task_ended (exitcode : Int) (output : String) (now : Int)
    (tf : TaskFields) : TaskFields :=
  { tf with
    task_exitcode := some exitcode
    task_output := output
    task_end_date := some now }

/-- `set_task_queued`: set `task_id` from `None` to the instance primary
key, raising `ValueError` when `task_id` is already set. -/
def set_task_queued (pk : Nat) (tf : TaskFields) : Except String TaskFields :=
  if tf.task_id.isSome then Except.error "task_id is already set"
  else Except.ok { tf with task_id := some pk }

/-- `set_task_staled`: mark the task stale with the special 88 exitcode. -/
def set_task_staled (now : Int) (tf : TaskFields) : TaskFields :=
  set_task_ended 88 "" now tf

/-- `set_task_stopped`: mark the task stopped with the special 99 exitcode. -/
def set_task_stopped (now : Int) (tf : TaskFields) : TaskFields :=
  set_task_ended 99 "" now tf

/-- Python `str.strip()` whitespace test, for the ASCII whitespace
characters (the unicode whitespace Python also strips plays no role here). -/
def pyIsSpace (c : Char) : Bool :=
  c = ' ' || c = '\t' || c = '\n' || c = '\r' || c = '\x0b' || c = '\x0c'

/-- Python `str.strip()`: drop leading and trailing whitespace. -/
def pyStrip (s : String) : String :=
  String.mk (((s.data.dropWhile pyIsSpace).reverse.dropWhile pyIsSpace).reverse)

/-- Whether a string contains a LF or CR character, as tested by
`any(lf in message for lf in ("\n", "\r"))`. -/
def containsLineReturn (s : String) : Bool :=
  s.data.any fun c => c = '\n' || c = '\r'

/-- `append_to_log(message)`: strip the message, raise `ValueError` when a
line return remains, otherwise append `message + "\n"` to `log` (saved with
`update_fields=["log"]`). -/
def append_to_log (message : String) (tf : TaskFields) : Except String TaskFields :=
  let message := pyStrip message
  if containsLineReturn message then
    Except.error "message cannot contain line returns (either CR or LF)."
  else
    Except.ok { tf with log := tf.log ++ message ++ "\n" }

/-- Result of `stop_task`: the task fields after the call, and whether a
cooperative stop command was sent to the queue. -/
structure StopResult where
  tf : TaskFields
  stop_signal_sent : Bool
deriving DecidableEq, Repr

/-- `stop_task`: append a log line, then stop directly in synchronous mode;
in async mode flag as stale when the job is absent, record an external kill
when the job already failed, otherwise send a stop command and mark stopped.
`jobStat` is the queue snapshot for the `task_id` of this Run (`none` = job not
found); `self.job.latest_result()` is opaque free text in the model. -/
def stop_task (async : Bool) (jobStat : Option JobStatus) (now : Int)
    (tf : TaskFields) : StopResult :=
  let tf :=
    match append_to_log "Stop task requested" tf with
    | Except.ok t => t
    | Except.error _ => tf
  if !async then
    { tf := set_task_stopped now tf, stop_signal_sent := false }
  else
    match jobStat with
    | none => { tf := set_task_staled now tf, stop_signal_sent := false }
    | some js =>
        if js = JobStatus.failed then
          { tf := set_task_ended 1 "Killed from outside, latest_result=<latest_result>" now tf
            stop_signal_sent := false }
        else
          { tf := set_task_stopped now tf, stop_signal_sent := true }

/-- Result of the deletion methods: the task fields at the moment the row is
deleted, whether the row was deleted, whether the queue job was deleted, and
whether a stop command was sent. -/
structure DeleteResult where
  tf : TaskFields
  deleted : Bool
  job_deleted : Bool
  stop_signal_sent : Bool
deriving DecidableEq, Repr

/-- The body of `delete_task(delete_self=False)`: the queue job is deleted
when async mode is on, `task_id` is set and the job is found. -/
def delete_task_dequeue (async : Bool) (jobStat : Option JobStatus)
    (tf : TaskFields) : Bool :=
  async && tf.task_id.isSome && jobStat.isSome

/-- `AbstractTaskFieldsModel.delete`: stop the task when running, dequeue it
when queued, then always delete the row (`super().delete()` is reached on
every path; redis connection errors suppressed by the source do not arise in
the model). -/
def delete (async : Bool) (jobStat : Option JobStatus) (now : Int)
    (tf : TaskFields) : DeleteResult :=
  if status tf = Status.running then
    let r := stop_task async jobStat now tf
    { tf := r.tf, deleted := true, job_deleted := false
      stop_signal_sent := r.stop_signal_sent }
  else if status tf = Status.queued then
    { tf := tf, deleted := true
      job_deleted := delete_task_dequeue async jobStat tf
      stop_signal_sent := false }
  else
    { tf := tf, deleted := true, job_deleted := false, stop_signal_sent := false }

/-- `delete_task(delete_self=True)`: delete the queue job when present, then
call `self.delete()`; once the job is deleted the queue no longer finds it,
so the inner `delete` sees a `none` snapshot in that case. -/
def delete_task (async : Bool) (jobStat : Option JobStatus) (now : Int)
    (tf : TaskFields) : DeleteResult :=
  let jd := delete_task_dequeue async jobStat tf
  let jobStat2 := if jd then none else jobStat
  let inner := delete async jobStat2 now tf
  { tf := inner.tf, deleted := inner.deleted
    job_deleted := jd || inner.job_deleted
    stop_signal_sent := inner.stop_signal_sent }

/-- The error a view signals by raising `Http404`. -/
inductive ViewError where
  | http404
deriving DecidableEq, Repr

/-- `delete_pipeline_view` (scanpipe/views.py): raise `Http404` unless the
Run status is `NOT_STARTED` or `QUEUED`, otherwise `run.delete_task()`. -/
def delete_pipeline_view (async : Bool) (jobStat : Option JobStatus)
    (now : Int) (tf : TaskFields) : Except ViewError DeleteResult :=
  if status tf = Status.not_started ∨ status tf = Status.queued then
    Except.ok (delete_task async jobStat now tf)
  else
    Except.error ViewError.http404

/-- A `Run` row: its `created_date` ordering field and its task fields. The
other Run columns (pipeline name, description, ...) play no role in the
claims under verification. -/
structure Run where
  created_date : Int
  tf : TaskFields
deriving DecidableEq, Repr

/-- `Run.get_previous_runs`: all runs of the project created strictly
before this one, regardless of their status. -/
def get_previous_runs (project : List Run) (r : Run) : List Run :=
  project.filter fun p => p.created_date < r.created_date

/-- `RunQuerySet.not_executed`: the runs with no `task_end_date` set. -/
def not_executed (runs : List Run) : List Run :=
  runs.filter fun p => p.tf.task_end_date.isNone

/-- `Run.can_start`: false unless the status is `NOT_STARTED` and no
previous run of the project is non-executed. -/
def can_start (project : List Run) (r : Run) : Bool :=
  if status r.tf ≠ Status.not_started then false
  else if !(not_executed (get_previous_runs project r)).isEmpty then false
  else true

/-- The exceptions the start path can raise. -/
inductive RunError where
  | runNotAllowedToStart
  | taskIdAlreadySet
deriving DecidableEq, Repr

/-- Result of the start / reconcile paths: the task fields afterwards, the
exception raised if any (field writes before the raise are kept, as each
`save()` in the source persists immediately), and whether a queue job was
enqueued. -/
structure StartResult where
  tf : TaskFields
  error : Option RunError
  enqueued : Bool
deriving DecidableEq, Repr

/-- `Run.execute_task_async` in async mode (`SCANCODEIO_ASYNC=True`): the
job is enqueued under the pk of the Run itself, then `set_task_queued` marks the
row as queued. -/
def execute_task_async (pk : Nat) (r : Run) : StartResult :=
  match set_task_queued pk r.tf with
  | Except.ok t => { tf := t, error := none, enqueued := true }
  | Except.error _ =>
      { tf := r.tf, error := some RunError.taskIdAlreadySet, enqueued := true }

/-- `Run.start`: run `execute_task_async` when the sequencing gate allows
it, otherwise raise `RunNotAllowedToStart`. -/
def start (project : List Run) (pk : Nat) (r : Run) : StartResult :=
  if can_start project r then execute_task_async pk r
  else { tf := r.tf, error := some RunError.runNotAllowedToStart, enqueued := false }

/-- The `task_output` recorded when the queue moved the job to the failed
registry while the Run still believed it was queued or running. -/
def failedRegistryOutput : String :=
  "Job was moved to the FailedJobRegistry during cleanup"

/-- `Run.sync_with_job` in async mode: `jobStat` is the fetched queue
snapshot for the `task_id` of this Run (`none` when the job is not found). Job
not found: a QUEUED run is reset then started again, a RUNNING run is
flagged stale, anything else is left untouched. Job found: when its status
disagrees with a RUNNING/QUEUED run, flag stopped, failed or stale. -/
def sync_with_job (project : List Run) (jobStat : Option JobStatus)
    (pk : Nat) (now : Int) (r : Run) : StartResult :=
  match jobStat with
  | none =>
      if status r.tf = Status.queued then
        start project pk { r with tf := reset_task_values r.tf }
      else if status r.tf = Status.running then
        { tf := set_task_staled now r.tf, error := none, enqueued := false }
      else
        { tf := r.tf, error := none, enqueued := false }
  | some js =>
      if (status r.tf = Status.running ∧ js ≠ JobStatus.started)
          ∨ (status r.tf = Status.queued ∧ js ≠ JobStatus.queued) then
        if js = JobStatus.stopped then
          { tf := set_task_stopped now r.tf, error := none, enqueued := false }
        else if js = JobStatus.failed then
          { tf := set_task_ended 1 failedRegistryOutput now r.tf
            error := none, enqueued := false }
        else
          { tf := set_task_staled now r.tf, error := none, enqueued := false }
      else
        { tf := r.tf, error := none, enqueued := false }

/-- The Task Lifecycle Recorder operations of the specification, with their
inputs (timestamps, ids, payload strings). -/
inductive TaskOp where
  | reset
  | set_queued (pk : Nat)
  | set_started (taskId : Nat) (now : Int)
  | set_ended (exitcode : Int) (output : String) (now : Int)
  | set_stale (now : Int)
  | set_stopped (now : Int)
  | append_log (message : String)
deriving DecidableEq, Repr

/-- Apply one recorder operation to the task fields; an operation that
raises leaves the fields unchanged. -/
def applyOp (tf : TaskFields) : TaskOp → TaskFields
  | TaskOp.reset => reset_task_values tf
  | TaskOp.set_queued pk =>
      match set_task_queued pk tf with
      | Except.ok t => t
      | Except.error _ => tf
  | TaskOp.set_started i n => set_task_started i n tf
  | TaskOp.set_ended e o n => set_task_ended e o n tf
  | TaskOp.set_stale n => set_task_staled n tf
  | TaskOp.set_stopped n => set_task_stopped n tf
  | TaskOp.append_log m =>
      match append_to_log m tf with
      | Except.ok t => t
      | Except.error _ => tf

/-- The data-model invariant of the specification (section 3):
`task_exitcode` is set iff `task_end_date` is set, and `task_start_date` is
set only when `task_id` is set. -/
def taskInvariant (tf : TaskFields) : Prop :=
  (tf.task_exitcode.isSome ↔ tf.task_end_date.isSome)
    ∧ (tf.task_start_date.isSome → tf.task_id.isSome)

/-! Concrete task-field states used by the witnesses and counterexamples. -/

/-- A queued state: `task_id` set, nothing else. -/
def queuedTf : TaskFields :=
  { initialTaskFields with task_id := some 5 }

/-- A running state: `task_id` and `task_start_date` set. -/
def runningTf : TaskFields :=
  { initialTaskFields with task_id := some 5, task_start_date := some 10 }

/-- A state with `task_end_date` set but `task_exitcode` still null. -/
def endedNoExitTf : TaskFields :=
  { runningTf with task_end_date := some 20 }

/-- A successfully executed state. -/
def succeededTf : TaskFields :=
  { runningTf with task_end_date := some 20, task_exitcode := some 0 }

/-- A 25-second run with the given start time and exitcode. -/
def timedTf (t0 exitcode : Int) : TaskFields :=
  { task_id := some 1
    task_start_date := some t0
    task_end_date := some (t0 + 25)
    task_exitcode := some exitcode
    task_output := ""
    log := "" }

/-! Helper lemmas about the derived status of states produced by the
recorder operations. -/

theorem status_reset_task_values (tf : TaskFields) :
    status (reset_task_values tf) = Status.not_started := rfl

theorem status_set_task_staled (now : Int) (tf : TaskFields) :
    status (set_task_staled now tf) = Status.stale := rfl

theorem status_set_task_stopped (now : Int) (tf : TaskFields) :
    status (set_task_stopped now tf) = Status.stopped := rfl

theorem status_set_task_ended_one (output : String) (now : Int) (tf : TaskFields) :
    status (set_task_ended 1 output now tf) = Status.failure := rfl

theorem status_enqueued_after_reset (pk : Nat) (tf : TaskFields) :
    status { reset_task_values tf with task_id := some pk } = Status.queued := rfl

theorem status_queued_task_id_isSome (tf : TaskFields)
    (h : status tf = Status.queued) : tf.task_id.isSome = true := by
  unfold status at h
  split_ifs at h
  assumption

/-- C1. The derived status is computed by first-match precedence over the
task fields exactly as the specification orders it (`statusSpec`), and it is
a pure function of the four task fields: two states agreeing on `task_id`,
`task_start_date`, `task_end_date` and `task_exitcode` have equal status.
Totality over the seven values is immediate from the `Status` type. -/
theorem status_matches_spec_precedence :
    (∀ tf : TaskFields, status tf = statusSpec tf)
    ∧ (∀ tf₁ tf₂ : TaskFields,
        tf₁.task_id = tf₂.task_id →
        tf₁.task_start_date = tf₂.task_start_date →
        tf₁.task_end_date = tf₂.task_end_date →
        tf₁.task_exitcode = tf₂.task_exitcode →
        status tf₁ = status tf₂) := by
  constructor
  · rintro ⟨id, st, en, ex, out, lg⟩
    cases ex with
    | none =>
        simp only [status, statusSpec, task_succeeded, task_staled, task_stopped,
          task_failed]
        cases st <;> cases id <;> simp
    | some e =>
        by_cases h0 : e = 0
        · subst h0
          simp [status, statusSpec, task_succeeded]
        · by_cases h88 : e = 88
          · subst h88
            simp [status, statusSpec, task_succeeded, task_staled]
          · by_cases h99 : e = 99
            · subst h99
              simp [status, statusSpec, task_succeeded, task_staled, task_stopped]
            · by_cases hp : 0 < e
              · simp [status, statusSpec, task_succeeded, task_staled, task_stopped,
                  task_failed, h0, h88, h99, hp]
              · simp only [status, statusSpec, task_succeeded, task_staled,
                  task_stopped, task_failed, h0, h88, h99, hp]
                cases st <;> cases id <;> simp [h0, h88, h99, hp]
  · rintro ⟨id, st, en, ex, out, lg⟩ ⟨id2, st2, en2, ex2, out2, lg2⟩ h1 h2 h3 h4
    dsimp only at h1 h2 h3 h4
    subst h1; subst h2; subst h3; subst h4
    rfl

/-- Witness for C1: the precedence equation and the four-field purity,
instantiated at concrete states that differ only in `task_output`. -/
theorem status_matches_spec_precedence_witness :
    status { initialTaskFields with task_exitcode := some 88 } = Status.stale
    ∧ status { initialTaskFields with task_output := "a" }
        = status { initialTaskFields with task_output := "b" } :=
  ⟨by
    have h := status_matches_spec_precedence.1
      { initialTaskFields with task_exitcode := some 88 }
    rw [h]; rfl,
   status_matches_spec_precedence.2
      { initialTaskFields with task_output := "a" }
      { initialTaskFields with task_output := "b" } rfl rfl rfl rfl⟩

/-- C9. The derived status never depends on `task_end_date`: two states
agreeing on `task_id`, `task_start_date` and `task_exitcode` have equal
status whatever their end dates; consequently a state with no exitcode is
reported RUNNING, QUEUED or NOT_STARTED, never a terminal status. -/
theorem status_independent_of_end_date :
    (∀ tf₁ tf₂ : TaskFields,
        tf₁.task_id = tf₂.task_id →
        tf₁.task_start_date = tf₂.task_start_date →
        tf₁.task_exitcode = tf₂.task_exitcode →
        status tf₁ = status tf₂)
    ∧ (∀ tf : TaskFields, tf.task_exitcode = none →
        status tf = Status.running ∨ status tf = Status.queued
          ∨ status tf = Status.not_started) := by
  constructor
  · rintro ⟨id, st, en, ex, out, lg⟩ ⟨id2, st2, en2, ex2, out2, lg2⟩ h1 h2 h3
    dsimp only at h1 h2 h3
    subst h1; subst h2; subst h3
    rfl
  · rintro ⟨id, st, en, ex, out, lg⟩ h
    dsimp only at h
    subst h
    simp only [status, task_succeeded, task_staled, task_stopped, task_failed]
    cases st <;> cases id <;> simp

/-- Witness for C9: a state with `task_end_date` set but no exitcode keeps
the same status as the same state with `task_end_date` null, and that
status is RUNNING. -/
theorem status_independent_of_end_date_witness :
    status endedNoExitTf = status runningTf
    ∧ (status endedNoExitTf = Status.running
        ∨ status endedNoExitTf = Status.queued
        ∨ status endedNoExitTf = Status.not_started) :=
  ⟨status_independent_of_end_date.1 _ _ rfl rfl rfl,
   status_independent_of_end_date.2 _ rfl⟩

/-- C10. `reset_task_values` writes only the five task fields: the result is
the record with those five fields nulled and every other field — in
particular the append-only `log` — carried over unchanged. -/
theorem reset_task_values_frame :
    ∀ tf : TaskFields,
      reset_task_values tf =
        { task_id := none, task_start_date := none, task_end_date := none,
          task_exitcode := none, task_output := "", log := tf.log } :=
  fun _ => rfl

/-- Witness for C10: the frame equation evaluated at a concrete executed
state carrying a non-empty log. -/
theorem reset_task_values_frame_witness :
    reset_task_values { succeededTf with log := "kept\n" } =
      { task_id := none, task_start_date := none, task_end_date := none,
        task_exitcode := none, task_output := "", log := "kept\n" } :=
  reset_task_values_frame { succeededTf with log := "kept\n" }

/-- C8. `execution_time` is `none` for the stale sentinel exitcode 88 and
when either date is unset; otherwise it is the whole number of seconds from
start to end; in particular 25 for a 25-second successful run and `none`
for the same dates with exitcode 88. -/
theorem execution_time_spec :
    ∀ tf : TaskFields,
      (tf.task_exitcode = some 88 → execution_time tf = none)
      ∧ ((tf.task_end_date = none ∨ tf.task_start_date = none) →
          execution_time tf = none)
      ∧ (tf.task_exitcode ≠ some 88 →
          ∀ s e : Int, tf.task_start_date = some s → tf.task_end_date = some e →
            execution_time tf = some (e - s))
      ∧ (∀ t0 : Int,
          execution_time (timedTf t0 0) = some 25
          ∧ execution_time (timedTf t0 88) = none) := by
  intro tf
  refine ⟨?_, ?_, ?_, ?_⟩
  · intro h
    simp [execution_time, task_staled, h]
  · intro h
    by_cases hs : task_staled tf
    · simp [execution_time, hs]
    · rcases h with h | h <;> simp [execution_time, hs, h]
  · intro hne s e hs he
    have hst : task_staled tf = false := by
      simp [task_staled, hne]
    simp [execution_time, hst, hs, he]
  · intro t0
    constructor
    · simp [execution_time, task_staled, timedTf]
    · simp [execution_time, task_staled, timedTf]

/-- Witness for C8: the concrete 25-second run and its staled twin, with
the hypotheses of `execution_time_spec` discharged at those inputs. -/
theorem execution_time_spec_witness :
    execution_time (timedTf 1000 88) = none
    ∧ execution_time (timedTf 1000 0) = some (1025 - 1000) :=
  ⟨(execution_time_spec _).1 rfl,
   (execution_time_spec _).2.2.1 (by decide) 1000 1025 rfl rfl⟩

/-- C6 counterexample. The message `"a\n"` contains a LF character, yet
`append_to_log` does not signal the error: the message is stripped first,
so the call succeeds and appends `"a\n"`. This refutes the claim that the
error is signalled whenever the message contains CR or LF. -/
theorem append_to_log_lf_message_accepted :
    append_to_log "a\n" initialTaskFields
      = Except.ok { initialTaskFields with log := "a\n" } := rfl

/-- C6 as amended. `append_to_log` first strips leading and trailing
whitespace from the message; it signals the error precisely when the
stripped message still contains a CR or LF (leaving `log` unchanged, since
the error is raised before any write), and otherwise appends the stripped
message followed by `"\n"` to `log` and modifies no other field. -/
theorem append_to_log_strip_spec :
    ∀ (tf : TaskFields) (message : String),
      (containsLineReturn (pyStrip message) = true →
        append_to_log message tf =
          Except.error "message cannot contain line returns (either CR or LF).")
      ∧ (containsLineReturn (pyStrip message) = false →
        append_to_log message tf =
          Except.ok { tf with log := tf.log ++ pyStrip message ++ "\n" }) := by
  intro tf message
  constructor <;> intro h <;> simp [append_to_log, h]

/-- Witness for C6 as amended: the message `"a\nb"` keeps its interior LF
after stripping, so the call signals the error. -/
theorem append_to_log_strip_spec_witness :
    append_to_log "a\nb" initialTaskFields
      = Except.error "message cannot contain line returns (either CR or LF)." :=
  (append_to_log_strip_spec initialTaskFields "a\nb").1 (by decide)

/-- Each recorder operation preserves the task-fields invariant. -/
theorem applyOp_preserves_taskInvariant (tf : TaskFields) (op : TaskOp)
    (h : taskInvariant tf) : taskInvariant (applyOp tf op) := by
  obtain ⟨h₁, h₂⟩ := h
  cases op with
  | reset =>
      simp [applyOp, reset_task_values, taskInvariant]
  | set_queued pk =>
      simp only [applyOp, set_task_queued]
      by_cases hid : tf.task_id.isSome
      · simp only [hid, if_pos]
        exact ⟨h₁, h₂⟩
      · simp only [hid, Bool.false_eq_true, if_neg, not_false_iff]
        exact ⟨h₁, fun _ => rfl⟩
  | set_started i n =>
      exact ⟨h₁, fun _ => rfl⟩
  | set_ended e o n =>
      exact ⟨by simp [applyOp, set_task_ended], h₂⟩
  | set_stale n =>
      exact ⟨by simp [applyOp, set_task_staled, set_task_ended], h₂⟩
  | set_stopped n =>
      exact ⟨by simp [applyOp, set_task_stopped, set_task_ended], h₂⟩
  | append_log m =>
      simp only [applyOp, append_to_log]
      cases hc : containsLineReturn (pyStrip m) <;> simp [hc]
      · exact ⟨h₁, h₂⟩
      · exact ⟨h₁, h₂⟩

/-- C7. Starting from the initial all-null state, every sequence of recorder
operations (`reset`, `set_queued`, `set_started`, `set_ended`, `set_stale`,
`set_stopped`, `append_log`) keeps the invariant: `task_exitcode` is set iff
`task_end_date` is set, and `task_start_date` is set only when `task_id`
is set. -/
theorem recorder_sequences_preserve_invariant :
    ∀ ops : List TaskOp, taskInvariant (ops.foldl applyOp initialTaskFields) := by
  have key : ∀ (ops : List TaskOp) (tf : TaskFields),
      taskInvariant tf → taskInvariant (ops.foldl applyOp tf) := by
    intro ops
    induction ops with
    | nil => intro tf h; simpa using h
    | cons op rest ih =>
        intro tf h
        simpa using ih (applyOp tf op) (applyOp_preserves_taskInvariant tf op h)
  intro ops
  exact key ops initialTaskFields ⟨by simp [initialTaskFields], by simp [initialTaskFields]⟩

/-- Witness for C7: the invariant evaluated after a concrete lifecycle
sequence. -/
theorem recorder_sequences_preserve_invariant_witness :
    taskInvariant ([TaskOp.set_queued 1, TaskOp.set_started 1 10,
      TaskOp.set_ended 0 "done" 20, TaskOp.append_log "ok",
      TaskOp.reset].foldl applyOp initialTaskFields) :=
  recorder_sequences_preserve_invariant
    [TaskOp.set_queued 1, TaskOp.set_started 1 10,
      TaskOp.set_ended 0 "done" 20, TaskOp.append_log "ok", TaskOp.reset]

/-! Concrete runs for the sequencing-gate scenario. -/

/-- First run of the scenario project, all task fields null. -/
def run1 : Run := { created_date := 1, tf := initialTaskFields }

/-- Second run of the scenario project, all task fields null. -/
def run2 : Run := { created_date := 2, tf := initialTaskFields }

/-- Third run of the scenario project, all task fields null. -/
def run3 : Run := { created_date := 3, tf := initialTaskFields }

/-- The first run after reaching a terminal state (`task_end_date` set). -/
def run1_done : Run := { created_date := 1, tf := succeededTf }

/-- The two-branch definition of `can_start` as a single conjunction. -/
theorem can_start_eq_and (project : List Run) (r : Run) :
    can_start project r =
      (decide (status r.tf = Status.not_started)
        && (not_executed (get_previous_runs project r)).isEmpty) := by
  rw [can_start]
  by_cases hs : status r.tf = Status.not_started <;>
    by_cases he : (not_executed (get_previous_runs project r)).isEmpty <;>
      simp [hs, he]

/-- The sequencing-gate emptiness check, phrased over project membership. -/
theorem gate_isEmpty_iff_previous_executed (project : List Run) (r : Run) :
    (not_executed (get_previous_runs project r)).isEmpty = true ↔
      ∀ p ∈ project, p.created_date < r.created_date →
        p.tf.task_end_date ≠ none := by
  rw [List.isEmpty_iff, not_executed, List.filter_eq_nil_iff]
  constructor
  · intro h p hp hlt hend
    refine h p ?_ ?_
    · rw [get_previous_runs, List.mem_filter]
      exact ⟨hp, by simpa using hlt⟩
    · simp [Option.isNone_iff_eq_none, hend]
  · intro h p hp
    rw [get_previous_runs, List.mem_filter] at hp
    obtain ⟨hmem, hlt⟩ := hp
    simp only [decide_eq_true_eq] at hlt
    simp [Option.isNone_iff_eq_none, h p hmem hlt]

/-- C2. `can_start` is true iff the status is NOT_STARTED and no run of the
project created earlier has `task_end_date` unset; and the three-run
scenario: initially only the first run may start, and once the first run has
ended only the second may start. -/
theorem can_start_spec :
    (∀ (project : List Run) (r : Run),
      can_start project r = true ↔
        (status r.tf = Status.not_started ∧
          ∀ p ∈ project, p.created_date < r.created_date →
            p.tf.task_end_date ≠ none))
    ∧ (can_start [run1, run2, run3] run1 = true
        ∧ can_start [run1, run2, run3] run2 = false
        ∧ can_start [run1, run2, run3] run3 = false
        ∧ can_start [run1_done, run2, run3] run2 = true
        ∧ can_start [run1_done, run2, run3] run3 = false) := by
  constructor
  · intro project r
    rw [can_start_eq_and, Bool.and_eq_true, decide_eq_true_eq,
      gate_isEmpty_iff_previous_executed]
  · refine ⟨by decide, by decide, by decide, by decide, by decide⟩

/-- Witness for C2: the iff applied at a concrete project in which the only
earlier run has ended, with both sides discharged by computation. -/
theorem can_start_spec_witness :
    can_start [run1_done] run2 = true :=
  (can_start_spec.1 [run1_done] run2).mpr ⟨by decide, by decide⟩

/-- C3 counterexample. A QUEUED run whose queue job is lost is not always
left re-queued: with an earlier sibling whose `task_end_date` is unset,
`sync_with_job` resets the task fields and then `start` raises
`RunNotAllowedToStart`, leaving the run NOT_STARTED with no `task_id`
assigned — contradicting the claim that the repair leaves the run re-queued
with a `task_id` assigned. -/
theorem sync_queued_lost_not_requeued :
    status queuedTf = Status.queued
    ∧ (sync_with_job [{ created_date := 0, tf := initialTaskFields }] none 5 100
          { created_date := 1, tf := queuedTf }).tf.task_id = none
    ∧ status (sync_with_job [{ created_date := 0, tf := initialTaskFields }] none 5 100
          { created_date := 1, tf := queuedTf }).tf = Status.not_started
    ∧ (sync_with_job [{ created_date := 0, tf := initialTaskFields }] none 5 100
          { created_date := 1, tf := queuedTf }).error
        = some RunError.runNotAllowedToStart := by
  refine ⟨rfl, ?_, ?_, ?_⟩ <;> rfl

/-! Branch computations of `sync_with_job`, shared by the reconciler
theorems below. -/

/-- The task fields of a run freshly re-enqueued after a reset: only
`task_id` is set (to the run primary key) and the log is carried over. -/
def requeuedTf (pk : Nat) (log : String) : TaskFields :=
  { task_id := some pk
    task_start_date := none
    task_end_date := none
    task_exitcode := none
    task_output := ""
    log := log }

/-- Job not found, QUEUED run, sequencing gate open: reset then re-enqueue. -/
theorem sync_none_queued_ok (project : List Run) (pk : Nat) (now : Int) (r : Run)
    (hq : status r.tf = Status.queued)
    (hgate : (not_executed (get_previous_runs project r)).isEmpty = true) :
    sync_with_job project none pk now r =
      { tf := requeuedTf pk r.tf.log, error := none, enqueued := true } := by
  rw [sync_with_job]
  simp only [hq, if_pos]
  rw [start]
  have hcs : can_start project { r with tf := reset_task_values r.tf } = true := by
    rw [can_start_eq_and]
    rw [List.isEmpty_iff] at hgate
    simp only [status_reset_task_values, decide_eq_true_eq, get_previous_runs]
    simpa [get_previous_runs] using hgate
  rw [hcs]
  simp only [if_pos]
  rw [execute_task_async]
  simp [set_task_queued, reset_task_values, requeuedTf]

/-- Job not found, QUEUED run, sequencing gate closed: reset, then `start`
raises `RunNotAllowedToStart`. -/
theorem sync_none_queued_blocked (project : List Run) (pk : Nat) (now : Int) (r : Run)
    (hq : status r.tf = Status.queued)
    (hgate : (not_executed (get_previous_runs project r)).isEmpty = false) :
    sync_with_job project none pk now r =
      { tf := reset_task_values r.tf
        error := some RunError.runNotAllowedToStart, enqueued := false } := by
  rw [sync_with_job]
  simp only [hq, if_pos]
  rw [start]
  have hcs : can_start project { r with tf := reset_task_values r.tf } = false := by
    rw [can_start_eq_and]
    have hgate2 : ¬ (not_executed (get_previous_runs project r) = []) := by
      intro h
      rw [h] at hgate
      simp at hgate
    simp only [status_reset_task_values, decide_eq_true_eq, get_previous_runs]
    simpa [get_previous_runs] using hgate2
  rw [hcs]
  simp

/-- Job not found, RUNNING run: flagged stale. -/
theorem sync_none_running (project : List Run) (pk : Nat) (now : Int) (r : Run)
    (hr : status r.tf = Status.running) :
    sync_with_job project none pk now r =
      { tf := set_task_staled now r.tf, error := none, enqueued := false } := by
  have hq : ¬ status r.tf = Status.queued := by
    rw [hr]; intro h; cases h
  rw [sync_with_job]
  simp [hq, hr]

/-- A run that is neither QUEUED nor RUNNING is left untouched by
`sync_with_job`, whatever the job snapshot says. -/
theorem sync_noop_of_settled (project : List Run) (jobStat : Option JobStatus)
    (pk : Nat) (now : Int) (r : Run)
    (hq : status r.tf ≠ Status.queued) (hr : status r.tf ≠ Status.running) :
    sync_with_job project jobStat pk now r =
      { tf := r.tf, error := none, enqueued := false } := by
  cases jobStat with
  | none => rw [sync_with_job]; simp [hq, hr]
  | some js => rw [sync_with_job]; simp [hq, hr]

/-- C3 as amended. When the queue job of a run is not found: a QUEUED run
has all its task fields cleared and `start` re-run — when every
earlier-created sibling has `task_end_date` set this leaves the run
re-queued, with `task_id` assigned and `task_start_date` still unset, and
otherwise `start` raises `RunNotAllowedToStart` and the run is left
NOT_STARTED with its task fields cleared; a RUNNING run is ended with the
stale sentinel 88 so its status becomes STALE; a run in any other status is
left unchanged. -/
theorem sync_with_job_not_found_spec :
    ∀ (project : List Run) (pk : Nat) (now : Int) (r : Run),
      (status r.tf = Status.queued →
        (not_executed (get_previous_runs project r)).isEmpty = true →
          sync_with_job project none pk now r =
            { tf := requeuedTf pk r.tf.log, error := none, enqueued := true }
          ∧ status (requeuedTf pk r.tf.log) = Status.queued
          ∧ (requeuedTf pk r.tf.log).task_start_date = none)
      ∧ (status r.tf = Status.queued →
          (not_executed (get_previous_runs project r)).isEmpty = false →
            sync_with_job project none pk now r =
              { tf := reset_task_values r.tf
                error := some RunError.runNotAllowedToStart, enqueued := false }
            ∧ status (reset_task_values r.tf) = Status.not_started)
      ∧ (status r.tf = Status.running →
          sync_with_job project none pk now r =
            { tf := set_task_staled now r.tf, error := none, enqueued := false }
          ∧ status (set_task_staled now r.tf) = Status.stale)
      ∧ (status r.tf ≠ Status.queued → status r.tf ≠ Status.running →
          sync_with_job project none pk now r =
            { tf := r.tf, error := none, enqueued := false }) := by
  intro project pk now r
  refine ⟨?_, ?_, ?_, ?_⟩
  · intro hq hgate
    exact ⟨sync_none_queued_ok project pk now r hq hgate, rfl, rfl⟩
  · intro hq hgate
    exact ⟨sync_none_queued_blocked project pk now r hq hgate,
      status_reset_task_values r.tf⟩
  · intro hr
    exact ⟨sync_none_running project pk now r hr, status_set_task_staled now r.tf⟩
  · intro hq hr
    exact sync_noop_of_settled project none pk now r hq hr

/-- Witness for C3 as amended: the three repair branches, each applied at a
concrete run with the hypotheses discharged by computation. -/
theorem sync_with_job_not_found_spec_witness :
    sync_with_job [] none 5 100 { created_date := 1, tf := queuedTf } =
      { tf := requeuedTf 5 "", error := none, enqueued := true }
    ∧ sync_with_job [] none 5 100 { created_date := 1, tf := runningTf } =
        { tf := set_task_staled 100 runningTf, error := none, enqueued := false }
    ∧ sync_with_job [] none 5 100 { created_date := 1, tf := succeededTf } =
        { tf := succeededTf, error := none, enqueued := false } :=
  ⟨((sync_with_job_not_found_spec [] 5 100 { created_date := 1, tf := queuedTf }).1
      (by decide) (by decide)).1,
   ((sync_with_job_not_found_spec [] 5 100 { created_date := 1, tf := runningTf }).2.2.1
      (by decide)).1,
   (sync_with_job_not_found_spec [] 5 100 { created_date := 1, tf := succeededTf }).2.2.2
      (by decide) (by decide)⟩

/-- C4. `sync_with_job` is idempotent on the Run state: for every Run and
every fixed external-job snapshot (including not-found), reconciling a
second time — at any later clock value — leaves the task fields exactly as
the first reconciliation left them. -/
theorem sync_with_job_idempotent :
    ∀ (project : List Run) (jobStat : Option JobStatus) (pk : Nat)
      (now now2 : Int) (r : Run),
      (sync_with_job project jobStat pk now2
          { r with tf := (sync_with_job project jobStat pk now r).tf }).tf
        = (sync_with_job project jobStat pk now r).tf := by
  intro project jobStat pk now now2 r
  cases jobStat with
  | none =>
      by_cases hq : status r.tf = Status.queued
      · by_cases hgate : (not_executed (get_previous_runs project r)).isEmpty = true
        · rw [sync_none_queued_ok project pk now r hq hgate]
          rw [sync_none_queued_ok project pk now2
            { r with tf := requeuedTf pk r.tf.log } rfl hgate]
          rfl
        · have hgate2 : (not_executed (get_previous_runs project r)).isEmpty = false := by
            exact Bool.not_eq_true _ ▸ eq_false_of_ne_true hgate
          rw [sync_none_queued_blocked project pk now r hq hgate2]
          rw [sync_noop_of_settled project none pk now2
            { r with tf := reset_task_values r.tf }
            (by simp [status_reset_task_values])
            (by simp [status_reset_task_values])]
      · by_cases hr : status r.tf = Status.running
        · rw [sync_none_running project pk now r hr]
          rw [sync_noop_of_settled project none pk now2
            { r with tf := set_task_staled now r.tf }
            (by simp [status_set_task_staled])
            (by simp [status_set_task_staled])]
        · rw [sync_noop_of_settled project none pk now r hq hr]
          rw [sync_noop_of_settled project none pk now2 { r with tf := r.tf } hq hr]
  | some js =>
      by_cases ho : (status r.tf = Status.running ∧ js ≠ JobStatus.started)
          ∨ (status r.tf = Status.queued ∧ js ≠ JobStatus.queued)
      · by_cases h1 : js = JobStatus.stopped
        · subst h1
          have hfirst : sync_with_job project (some JobStatus.stopped) pk now r =
              { tf := set_task_stopped now r.tf, error := none, enqueued := false } := by
            simp only [sync_with_job]
            rw [if_pos ho]
            simp
          rw [hfirst]
          rw [sync_noop_of_settled project (some JobStatus.stopped) pk now2
            { r with tf := set_task_stopped now r.tf }
            (by simp [status_set_task_stopped])
            (by simp [status_set_task_stopped])]
        · by_cases h2 : js = JobStatus.failed
          · subst h2
            have hfirst : sync_with_job project (some JobStatus.failed) pk now r =
                { tf := set_task_ended 1 failedRegistryOutput now r.tf
                  error := none, enqueued := false } := by
              simp only [sync_with_job]
              rw [if_pos ho]
              simp
            rw [hfirst]
            rw [sync_noop_of_settled project (some JobStatus.failed) pk now2
              { r with tf := set_task_ended 1 failedRegistryOutput now r.tf }
              (by simp [status_set_task_ended_one])
              (by simp [status_set_task_ended_one])]
          · have hfirst : sync_with_job project (some js) pk now r =
                { tf := set_task_staled now r.tf, error := none, enqueued := false } := by
              simp only [sync_with_job]
              rw [if_pos ho]
              simp [h1, h2]
            rw [hfirst]
            rw [sync_noop_of_settled project (some js) pk now2
              { r with tf := set_task_staled now r.tf }
              (by simp [status_set_task_staled])
              (by simp [status_set_task_staled])]
      · have hfirst : sync_with_job project (some js) pk now r =
            { tf := r.tf, error := none, enqueued := false } := by
          simp only [sync_with_job]
          rw [if_neg ho]
        rw [hfirst]
        have hrr : ({ r with tf := r.tf } : Run) = r := rfl
        rw [hrr]
        have hsecond : sync_with_job project (some js) pk now2 r =
            { tf := r.tf, error := none, enqueued := false } := by
          simp only [sync_with_job]
          rw [if_neg ho]
        rw [hsecond]

/-- Witness for C4: idempotence evaluated at a concrete RUNNING run whose
job was lost, reconciled at two different clock values. -/
theorem sync_with_job_idempotent_witness :
    (sync_with_job [] none 5 200
        { created_date := 1,
          tf := (sync_with_job [] none 5 100
            { created_date := 1, tf := runningTf }).tf }).tf
      = (sync_with_job [] none 5 100 { created_date := 1, tf := runningTf }).tf :=
  sync_with_job_idempotent [] none 5 100 200 { created_date := 1, tf := runningTf }

/-- The model delete of `AbstractTaskFieldsModel.delete` reaches
`super().delete()` on every path. -/
theorem delete_always_deletes (async : Bool) (jobStat : Option JobStatus)
    (now : Int) (tf : TaskFields) : (delete async jobStat now tf).deleted = true := by
  rw [delete]
  split_ifs <;> rfl

/-- `delete_task(delete_self=True)` always deletes the row. -/
theorem delete_task_always_deletes (async : Bool) (jobStat : Option JobStatus)
    (now : Int) (tf : TaskFields) :
    (delete_task async jobStat now tf).deleted = true := by
  rw [delete_task]
  exact delete_always_deletes async _ now tf

/-- C5. The deletion entry point (`delete_pipeline_view`): deleting a
RUNNING run signals `Http404` and performs no deletion; deleting a
NOT_STARTED or QUEUED run succeeds, and in the QUEUED case with the queue
active and the job present, the queue job is removed. -/
theorem delete_pipeline_view_spec :
    ∀ (async : Bool) (jobStat : Option JobStatus) (now : Int) (tf : TaskFields),
      (status tf = Status.running →
        delete_pipeline_view async jobStat now tf = Except.error ViewError.http404)
      ∧ ((status tf = Status.not_started ∨ status tf = Status.queued) →
          delete_pipeline_view async jobStat now tf =
            Except.ok (delete_task async jobStat now tf)
          ∧ (delete_task async jobStat now tf).deleted = true
          ∧ (status tf = Status.queued → async = true → jobStat.isSome = true →
              (delete_task async jobStat now tf).job_deleted = true)) := by
  intro async jobStat now tf
  constructor
  · intro h
    rw [delete_pipeline_view]
    have h1 : ¬(status tf = Status.not_started ∨ status tf = Status.queued) := by
      rw [h]
      rintro (h2 | h2) <;> cases h2
    simp [h1]
  · intro h
    refine ⟨by rw [delete_pipeline_view]; simp [h], delete_task_always_deletes async jobStat now tf, ?_⟩
    intro hq ha hj
    have hid := status_queued_task_id_isSome tf hq
    rw [delete_task]
    simp [delete_task_dequeue, ha, hid, hj]

/-- Witness for C5: a concrete QUEUED run with the queue active and the job
present is deleted together with its queue job, and a concrete RUNNING run
is refused with `Http404`. -/
theorem delete_pipeline_view_spec_witness :
    delete_pipeline_view true (some JobStatus.queued) 100 queuedTf
      = Except.ok (delete_task true (some JobStatus.queued) 100 queuedTf)
    ∧ (delete_task true (some JobStatus.queued) 100 queuedTf).job_deleted = true
    ∧ delete_pipeline_view true (some JobStatus.started) 100 runningTf
      = Except.error ViewError.http404 :=
  ⟨((delete_pipeline_view_spec true (some JobStatus.queued) 100 queuedTf).2
      (Or.inr (by decide))).1,
   ((delete_pipeline_view_spec true (some JobStatus.queued) 100 queuedTf).2
      (Or.inr (by decide))).2.2 (by decide) rfl rfl,
   (delete_pipeline_view_spec true (some JobStatus.started) 100 runningTf).1
      (by decide)⟩

end Scanpipe
